import Mathlib

/-!
Verification of the afip.js SOAP-client classes `ElectronicBilling`
(src/Class/ElectronicBilling.js) and `RegisterScopeFour`
(src/Class/RegisterScopeFour.js) against their specification.

JavaScript values are shallowly embedded as the inductive `JSVal`; JS
objects become insertion-ordered association lists, thrown errors become
`Except` failures carrying a `JSErr`.  Numeric values in the scope of the
verified claims are integers, so numbers are modelled as `Int`.
-/

set_option autoImplicit false

namespace Afip

/-- A JavaScript value.  `vUndefined` is `undefined`, `vNaN` the number NaN.
Objects keep their keys in insertion order (JS enumeration order for
string keys), with unique keys. -/
inductive JSVal where
  | vNull
  | vUndefined
  | vNaN
  | vBool (b : Bool)
  | vNum (n : Int)
  | vStr (s : String)
  | arr (l : List JSVal)
  | obj (o : List (String × JSVal))

/-- A JS object: an insertion-ordered association list of properties. -/
abbrev JSObj := List (String × JSVal)

namespace JSVal

/-- JS truthiness: `null`, `undefined`, `NaN`, `false`, `0` and `""` are
falsy; every other value (including `[]` and `{}`) is truthy. -/
def truthy : JSVal → Bool
  | vNull => false
  | vUndefined => false
  | vNaN => false
  | vBool b => b
  | vNum n => n ≠ 0
  | vStr s => s ≠ ""
  | arr _ => true
  | obj _ => true

/-- JS `Array.isArray`. -/
def isArray : JSVal → Bool
  | arr _ => true
  | _ => false

end JSVal

/-- First binding of key `k`, JS objects having unique keys. -/
def getV : JSObj → String → Option JSVal
  | [], _ => none
  | (k', v) :: t, k => if k' = k then some v else getV t k

/-- Property read defaulting to `undefined`, as a JS member access on an
object does for a missing key. -/
def getD (o : JSObj) (k : String) : JSVal :=
  (getV o k).getD .vUndefined

/-- JS property assignment `o[k] = v`: overwrite in place when the key
exists, append otherwise. -/
def setV : JSObj → String → JSVal → JSObj
  | [], k, v => [(k, v)]
  | (k', v') :: t, k, v => if k' = k then (k, v) :: t else (k', v') :: setV t k v

/-- JS `delete o[k]`: remove the binding of `k` (keys are unique in a JS
object, so removing every occurrence is the same operation). -/
def eraseV : JSObj → String → JSObj
  | [], _ => []
  | (k', v) :: t, k => if k' = k then eraseV t k else (k', v) :: eraseV t k

/-- A thrown JS error: its `message`, and its `code` property when one was
ever assigned (`none` models an absent property, i.e. `undefined`). -/
structure JSErr where
  message : String
  code : Option Int
  deriving DecidableEq, Repr

/-- Result of a fallible JS computation. -/
abbrev JSRes (α : Type) := Except JSErr α

/-- The `TypeError` raised by a property access on `null`/`undefined`. -/
def typeError (k : String) : JSErr :=
  ⟨"TypeError: cannot read properties of null or undefined (reading " ++ k ++ ")", none⟩

/-- JS member access `v.k`: throws a TypeError on `null`/`undefined`,
yields the property (or `undefined`) on an object, and `undefined` on any
other value (no prototype methods are modelled). -/
def getProp (v : JSVal) (k : String) : JSRes JSVal :=
  match v with
  | .vNull => .error (typeError k)
  | .vUndefined => .error (typeError k)
  | .obj o => .ok (getD o k)
  | _ => .ok .vUndefined

/-- JS member access on a value already known to be truthy (hence not
`null`/`undefined`), as destructuring `let {token, sign} = x` performs. -/
def getPropD (v : JSVal) (k : String) : JSVal :=
  match v with
  | .obj o => getD o k
  | _ => .vUndefined

/-- JS property assignment `v.k = x` (class code runs in strict mode, so
assigning to a property of a primitive throws). -/
def setProp (v : JSVal) (k : String) (x : JSVal) : JSRes JSVal :=
  match v with
  | .obj o => .ok (.obj (setV o k x))
  | _ => .error (typeError k)

/-- JS `Object.assign(target, source)`: copy the source's properties into the
target in order, returning the merged object. -/
def objAssign (target source : JSObj) : JSObj :=
  source.foldl (fun t p => setV t p.1 p.2) target

mutual

/-- JS string conversion as used by template literals and `toString` for
the value shapes that occur here (arrays join their elements with commas,
plain objects print as `[object Object]`). -/
def jsToString : JSVal → String
  | .vNull => "null"
  | .vUndefined => "undefined"
  | .vNaN => "NaN"
  | .vBool b => if b then "true" else "false"
  | .vNum n => toString n
  | .vStr s => s
  | .arr l => jsToStringList l
  | .obj _ => "[object Object]"

/-- Comma-joined string conversion of an array's elements. -/
def jsToStringList : List JSVal → String
  | [] => ""
  | [x] => jsToString x
  | x :: y :: t => jsToString x ++ "," ++ jsToStringList (y :: t)

end

/-- JS strict comparison `v === s` against a string literal: true exactly
when `v` is that string (values of any other type are never strictly equal
to a string). -/
def strictEqStr (v : JSVal) (s : String) : Bool :=
  match v with
  | .vStr s' => s' = s
  | _ => false

/-- JS `+` restricted to the shapes used by the sources: number addition,
string concatenation, anything else NaN. -/
def jsAdd : JSVal → JSVal → JSVal
  | .vNum a, .vNum b => .vNum (a + b)
  | .vStr a, b => .vStr (a ++ jsToString b)
  | a, .vStr b => .vStr (jsToString a ++ b)
  | _, _ => .vNaN

/-- JS `-` restricted likewise: number subtraction, anything else NaN. -/
def jsSub : JSVal → JSVal → JSVal
  | .vNum a, .vNum b => .vNum (a - b)
  | _, _ => .vNaN

/-- Character-level prefix test: `leadEq pat hay` holds when `pat` is an
initial segment of `hay`. -/
def leadEq : List Char → List Char → Bool
  | [], _ => true
  | _ :: _, [] => false
  | c :: cs, d :: ds => c = d && leadEq cs ds

/-- True when `pat` occurs somewhere inside `hay`. -/
def containsSubList (hay pat : List Char) : Bool :=
  leadEq pat hay ||
    match hay with
    | [] => false
    | _ :: t => containsSubList t pat

/-- JS `s.indexOf(sub) !== -1`: `sub` occurs as a substring of `s`. -/
def containsSub (s sub : String) : Bool :=
  containsSubList s.data sub.data

/-- The `afip` collaborator both classes receive: the represented CUIT and
the `GetServiceTA` auth delegate, giving a token/sign object per service
name. -/
structure AfipCtx where
  CUIT : JSVal
  serviceTA : String → JSObj

/-- The SOAP transport (`super.executeRequest`): maps an operation name
and the submitted parameter tree to the raw response tree, or rejects with
a transport-level error. -/
abbrev Transport := String → JSObj → JSRes JSVal

/-- Outcome of one public operation: its resolved/rejected value, the
delegate service names passed to `GetServiceTA` (in call order), and the
`(operation, params)` pairs handed to the transport (in call order). -/
structure CallOut where
  result : JSRes JSVal
  consulted : List String
  submitted : List (String × JSObj)

namespace ElectronicBilling

/-- The service name the constructor registers (`super(options, { service:
"wsfe" })`, ElectronicBilling.js line 19). -/
def serviceName : String := "wsfe"

/-- Model of `getWSInitialRequest` (lines 331-345): no auth block for `FEDummy`;
otherwise the token/sign pair is destructured from the supplied
`tokenAndSign` when truthy, else from
`GetServiceTA("ws_sr_constancia_inscripcion")`.  Returns the initial
request object together with the delegate service consulted, if any. -/
def getWSInitialRequest (afip : AfipCtx) (operation : String) (tokenAndSign : JSVal) :
    JSObj × Option String :=
  if operation = "FEDummy" then ([], none)
  else
    let cred := if tokenAndSign.truthy then tokenAndSign
                else JSVal.obj (afip.serviceTA "ws_sr_constancia_inscripcion")
    let consulted : Option String :=
      if tokenAndSign.truthy then none else some "ws_sr_constancia_inscripcion"
    ([("Auth", JSVal.obj [("Token", getPropD cred "token"), ("Sign", getPropD cred "sign"),
        ("Cuit", afip.CUIT)])], consulted)

/-- Model of `_checkErrors` (lines 357-374).  For `FECAESolicitar` with a truthy
`FeDetResp`: collapse a returned `FECAEDetResponse` array to its first
element, then, when `Observaciones` is truthy and `Resultado !== "A"`,
install `Errors = { Err: Observaciones.Obs }`.  Then, whenever `Errors` is
truthy, throw `new Error("(" + Code + ") " + Msg, Code)` built from the
first error entry.  Node's `Error` constructor ignores a non-object second
argument, so the thrown error has no `code` property (`none`).  Returns
the (possibly updated) `<operation>Result` subtree on success. -/
def checkErrors (operation : String) (results : JSVal) : JSRes JSVal := do
  let res ← getProp results (operation ++ "Result")
  let res ←
    if operation = "FECAESolicitar" then do
      let fd ← getProp res "FeDetResp"
      if fd.truthy then do
        let det0 ← getProp fd "FECAEDetResponse"
        let (det, res1) ←
          match det0 with
          | .arr l => do
            let d := l.headD .vUndefined
            let fd1 ← setProp fd "FECAEDetResponse" d
            let r1 ← setProp res "FeDetResp" fd1
            pure (d, r1)
          | _ => pure (det0, res)
        let obs ← getProp det "Observaciones"
        if obs.truthy then do
          let resultado ← getProp det "Resultado"
          if strictEqStr resultado "A" then pure res1
          else setProp res1 "Errors" (.obj [("Err", getPropD obs "Obs")])
        else pure res1
      else pure res
    else pure res
  let errs ← getProp res "Errors"
  if errs.truthy then do
    let errRaw ← getProp errs "Err"
    let errv := match errRaw with | .arr l => l.headD .vUndefined | _ => errRaw
    let code ← getProp errv "Code"
    let msg ← getProp errv "Msg"
    .error ⟨"(" ++ jsToString code ++ ") " ++ jsToString msg, none⟩
  else pure res

/-- Model of `executeRequest` (lines 314-322): merge the initial request into the
params (`Object.assign`), invoke the transport, run `_checkErrors`, and
unwrap the `<operation>Result` field. -/
def executeRequest (afip : AfipCtx) (transport : Transport) (operation : String)
    (params : JSObj) (tokenAndSign : JSVal) : CallOut :=
  let (initial, consulted) := getWSInitialRequest afip operation tokenAndSign
  let submitted := objAssign params initial
  let result : JSRes JSVal := do
    let results ← transport operation submitted
    checkErrors operation results
  ⟨result, consulted.toList, [(operation, submitted)]⟩

/-- Model of `getLastVoucher` (lines 34-41): request `FECompUltimoAutorizado` with
the sales point and voucher type and return the response's `CbteNro`. -/
def getLastVoucher (afip : AfipCtx) (transport : Transport)
    (salesPoint vtype tokenAndSign : JSVal) : CallOut :=
  let c := executeRequest afip transport "FECompUltimoAutorizado"
    [("PtoVta", salesPoint), ("CbteTipo", vtype)] tokenAndSign
  { c with result := do
      let r ← c.result
      getProp r "CbteNro" }

/-- One conditional plural-to-singular wrap (lines 83-91):
`if (data[p]) data[p] = { s: data[p] }`. -/
def wrapField (d : JSObj) (p s : String) : JSObj :=
  match getV d p with
  | some v => if v.truthy then setV d p (.obj [(s, v)]) else d
  | none => d

/-- The five (plural, singular) field pairs reshaped by `createVoucher`,
in source order. -/
def wrapPairs : List (String × String) :=
  [("Tributos", "Tributo"), ("Iva", "AlicIva"), ("CbtesAsoc", "CbteAsoc"),
   ("Compradores", "Comprador"), ("Opcionales", "Opcional")]

/-- The detail section `FECAEDetRequest` as it stands when the request is
submitted: the copy of `data` after the three header deletions (lines
79-81) and the five conditional wraps (lines 83-91), which the request
object built at lines 66-77 aliases. -/
def voucherDetail (data : JSObj) : JSObj :=
  wrapPairs.foldl (fun d q => wrapField d q.1 q.2)
    (eraseV (eraseV (eraseV data "CantReg") "PtoVta") "CbteTipo")

/-- The `FECAESolicitar` request (lines 66-77) as submitted.  The header
fields are read from `data` before the deletions; the detail aliases the
mutated copy, so it carries `voucherDetail data`. -/
def voucherReq (data : JSObj) : JSObj :=
  [("FeCAEReq", JSVal.obj [
     ("FeCabReq", JSVal.obj [
        ("CantReg", jsAdd (jsSub (getD data "CbteHasta") (getD data "CbteDesde")) (.vNum 1)),
        ("PtoVta", getD data "PtoVta"),
        ("CbteTipo", getD data "CbteTipo")]),
     ("FeDetReq", JSVal.obj [("FECAEDetRequest", JSVal.obj (voucherDetail data))])])]

/-- The regex replacement inside `formatDate`:
`replace(/(\d{4})(\d{2})(\d{2})/, (m, y, mo, d) => y + "-" + mo + "-" + d)`:
find the leftmost run of eight digits, rewrite it as `yyyy-mm-dd`, and
keep everything else; no match leaves the string unchanged (the regex is
not global, so only the first match is replaced). -/
def replaceDate8 : List Char → List Char
  | [] => []
  | c :: t =>
    if 8 ≤ (c :: t).length ∧ ((c :: t).take 8).all Char.isDigit then
      (c :: t).take 4 ++ '-' :: ((c :: t).drop 4).take 2
        ++ '-' :: ((c :: t).drop 6).take 2 ++ (c :: t).drop 8
    else c :: replaceDate8 t

/-- String-level transformation of `formatDate`. -/
def dateReplace (s : String) : String := String.mk (replaceDate8 s.data)

/-- Model of `formatDate` (lines 302-304): `date.toString()` (a TypeError on
`null`/`undefined`) followed by the regex replacement. -/
def formatDate (date : JSVal) : JSRes JSVal :=
  match date with
  | .vNull => .error (typeError "toString")
  | .vUndefined => .error (typeError "toString")
  | v => .ok (.vStr (dateReplace (jsToString v)))

/-- Model of `createVoucher` (lines 61-107).  Line 63 reassigns the `tokenAndSign`
parameter to `data.token`, so the caller's credential argument is
discarded.  On success, `returnResponse === true` yields the full result;
otherwise a single-element `FECAEDetResponse` array is collapsed and the
minimal `{CAE, CAEFchVto}` pair is returned with the date formatted. -/
def createVoucher (afip : AfipCtx) (transport : Transport) (data : JSObj)
    (returnResponse tokenAndSign : JSVal) : CallOut :=
  let ts := getD data "token"
  let c := executeRequest afip transport "FECAESolicitar" (voucherReq data) ts
  { c with result := do
      let results ← c.result
      match returnResponse with
      | .vBool true => pure results
      | _ => do
        let fd ← getProp results "FeDetResp"
        let det0 ← getProp fd "FECAEDetResponse"
        let det := match det0 with | .arr l => l.headD .vUndefined | _ => det0
        let cae ← getProp det "CAE"
        let fch ← getProp det "CAEFchVto"
        let fstr ← formatDate fch
        pure (.obj [("CAE", cae), ("CAEFchVto", fstr)]) }

/-- Model of `createNextVoucher` (lines 122-134): `getLastVoucher` is called
without forwarding the credential; the next number is written into the
caller's `data` as both `CbteDesde` and `CbteHasta`; line 130 passes
`tokenAndSign` in `createVoucher`'s `returnResponse` position (and nothing
as its credential); the voucher number is added to the result. -/
def createNextVoucher (afip : AfipCtx) (transport : Transport) (data : JSObj)
    (tokenAndSign : JSVal) : CallOut :=
  let c1 := getLastVoucher afip transport (getD data "PtoVta") (getD data "CbteTipo") .vUndefined
  match c1.result with
  | .error e => { c1 with result := .error e }
  | .ok lastVoucher =>
    let vn := jsAdd lastVoucher (.vNum 1)
    let data1 := setV (setV data "CbteDesde" vn) "CbteHasta" vn
    let c2 := createVoucher afip transport data1 tokenAndSign .vUndefined
    { result := do
        let res ← c2.result
        setProp res "voucherNumber" vn
      consulted := c1.consulted ++ c2.consulted
      submitted := c1.submitted ++ c2.submitted }

/-- Model of `getVoucherInfo` (lines 149-167): request `FECompConsultar`, catch an
error whose `code` property is `602` by substituting `null`, then read
`.ResultGet` from whatever the catch produced. -/
def getVoucherInfo (afip : AfipCtx) (transport : Transport)
    (number salesPoint vtype tokenAndSign : JSVal) : CallOut :=
  let req : JSObj := [("FeCompConsReq", JSVal.obj
    [("CbteNro", number), ("PtoVta", salesPoint), ("CbteTipo", vtype)])]
  let c := executeRequest afip transport "FECompConsultar" req tokenAndSign
  let caught : JSRes JSVal :=
    match c.result with
    | .error e => if e.code = some 602 then .ok .vNull else .error e
    | .ok v => .ok v
  { c with result := do
      let r ← caught
      getProp r "ResultGet" }

/-- Local-variable model of the statements of `createVoucher` that act on
`data` (lines 62-91): the local binding either still aliases the caller's
object or points at the `Object.assign({}, data)` copy, and each
delete/wrap lands wherever the binding points. -/
inductive DataStmt where
  | reassignCopy
  | deleteKey (k : String)
  | wrapIf (p s : String)

/-- State of that statement model: the caller's object, whether the local
binding was redirected to the copy, and the copy's contents. -/
structure DataState where
  orig : JSObj
  onCopy : Bool
  copy : JSObj

/-- Contents currently visible through the local `data` binding. -/
def readData (st : DataState) : JSObj := if st.onCopy then st.copy else st.orig

/-- Write through the local `data` binding. -/
def writeData (st : DataState) (o : JSObj) : DataState :=
  if st.onCopy then { st with copy := o } else { st with orig := o }

/-- One statement step. -/
def stepData : DataStmt → DataState → DataState
  | .reassignCopy, st => { st with onCopy := true, copy := readData st }
  | .deleteKey k, st => writeData st (eraseV (readData st) k)
  | .wrapIf p s, st => writeData st (wrapField (readData st) p s)

/-- Run a statement list. -/
def runData (l : List DataStmt) (st : DataState) : DataState :=
  l.foldl (fun s stm => stepData stm s) st

/-- The statement sequence of `createVoucher` acting on `data`, in source
order (lines 64, 79-81, 83-91). -/
def createVoucherDataProg : List DataStmt :=
  [.reassignCopy, .deleteKey "CantReg", .deleteKey "PtoVta", .deleteKey "CbteTipo",
   .wrapIf "Tributos" "Tributo", .wrapIf "Iva" "AlicIva", .wrapIf "CbtesAsoc" "CbteAsoc",
   .wrapIf "Compradores" "Comprador", .wrapIf "Opcionales" "Opcional"]

end ElectronicBilling

namespace RegisterScopeFour

/-- The service name the constructor registers (RegisterScopeFour.js
line 19). -/
def serviceName : String := "ws_sr_padron_a4"

/-- Model of `executeRequest` (lines 74-78): invoke the transport and unwrap
`personaReturn` for `getPersona`, `return` otherwise. -/
def executeRequest (transport : Transport) (operation : String) (params : JSObj) :
    JSRes JSVal := do
  let results ← transport operation params
  getProp results (if operation = "getPersona" then "personaReturn" else "return")

/-- Model of `getTaxpayerDetails` (lines 43-64): token/sign from the supplied
credential when truthy, else from `GetServiceTA("ws_sr_padron_a4")`; send
`getPersona`, take `.persona` of the unwrapped result, and catch any error
whose message contains `"No existe"` by resolving `null`. -/
def getTaxpayerDetails (afip : AfipCtx) (transport : Transport)
    (identifier tokenAndSign : JSVal) : JSRes JSVal :=
  let cred := if tokenAndSign.truthy then tokenAndSign
              else .obj (afip.serviceTA "ws_sr_padron_a4")
  let params : JSObj :=
    [("token", getPropD cred "token"), ("sign", getPropD cred "sign"),
     ("cuitRepresentada", afip.CUIT), ("idPersona", identifier)]
  let r : JSRes JSVal := do
    let res ← executeRequest transport "getPersona" params
    getProp res "persona"
  match r with
  | .error e => if containsSub e.message "No existe" then .ok .vNull else .error e
  | .ok v => .ok v

end RegisterScopeFour

/-! ### Shared concrete fixtures (mocked collaborators used by several
claims) -/

/-- A concrete `afip` collaborator whose delegate hands out a
distinguishable token/sign pair per service name. -/
def afipFix : AfipCtx :=
  ⟨.vNum 20111111112, fun s =>
    if s = "ws_sr_constancia_inscripcion" then [("token", .vStr "DT"), ("sign", .vStr "DS")]
    else if s = "ws_sr_padron_a4" then [("token", .vStr "PT"), ("sign", .vStr "PS")]
    else [("token", .vStr "ZT"), ("sign", .vStr "ZS")]⟩

/-- A caller-supplied credential, distinguishable from everything the
delegate hands out. -/
def credFix : JSVal := .obj [("token", .vStr "CT"), ("sign", .vStr "CS")]

/-- A minimal voucher input without a `token` field. -/
def dataFix : JSObj :=
  [("CbteDesde", .vNum 1), ("CbteHasta", .vNum 1), ("PtoVta", .vNum 3), ("CbteTipo", .vNum 11)]

/-- A `FECAESolicitar` response whose detail section is the given value. -/
def feCAEResponseWith (d : JSVal) : JSVal :=
  .obj [("FECAESolicitarResult", .obj [("FeDetResp", .obj [("FECAEDetResponse", d)])])]

/-- An approved voucher detail. -/
def okDet : JSVal :=
  .obj [("CAE", .vStr "75001"), ("CAEFchVto", .vStr "20230425"), ("Resultado", .vStr "A")]

/-- A successful `FECAESolicitar` response. -/
def okResp : JSVal := feCAEResponseWith okDet

/-- A `FECompUltimoAutorizado` response reporting `n` as the last voucher
number. -/
def lastResp (n : Int) : JSVal :=
  .obj [("FECompUltimoAutorizadoResult", .obj [("CbteNro", .vNum n)])]

/-- A transport answering `FECompUltimoAutorizado` with last voucher `n`
and every other operation with `resp`. -/
def transport8 (n : Int) (resp : JSVal) : Transport :=
  fun op _ => if op = "FECompUltimoAutorizado" then .ok (lastResp n) else .ok resp

/-- A mocked `FECompConsultar` response carrying the remote business error
602 ("voucher does not exist"). -/
def resp602 : JSVal :=
  .obj [("FECompConsultarResult", .obj [("Errors", .obj [("Err", .obj
    [("Code", .vNum 602), ("Msg", .vStr "No existen datos en la base")])])])]

/-- A voucher detail with outcome `r` and an observations list headed by
`{Code: code, Msg: msg}`. -/
def obsDetail (r code msg : JSVal) (rest : List JSVal) : JSVal :=
  .obj [("Resultado", r),
        ("Observaciones", .obj [("Obs", .arr (.obj [("Code", code), ("Msg", msg)] :: rest))]),
        ("CAE", .vStr "75001"), ("CAEFchVto", .vStr "20230425")]

/-- Read field `k` of the `FECAEDetRequest` detail section inside the
`i`-th transport submission of a call. -/
def submittedDetailField (c : CallOut) (i : Nat) (k : String) : Option JSVal :=
  (c.submitted.get? i).bind fun x =>
    (getV x.2 "FeCAEReq").bind fun v =>
      match v with
      | .obj o =>
        (getV o "FeDetReq").bind fun w =>
          match w with
          | .obj o2 =>
            (getV o2 "FECAEDetRequest").bind fun u =>
              match u with
              | .obj d => getV d k
              | _ => none
          | _ => none
      | _ => none

/-! ### Association-list lemmas -/

theorem getV_setV_self (o : JSObj) (k : String) (v : JSVal) :
    getV (setV o k v) k = some v := by
  induction o with
  | nil => simp [setV, getV]
  | cons p t ih =>
    by_cases h : p.1 = k <;> simp [setV, getV, h, ih]

theorem getV_setV_ne (o : JSObj) (k k' : String) (v : JSVal) (h : k' ≠ k) :
    getV (setV o k v) k' = getV o k' := by
  induction o with
  | nil => simp [setV, getV, Ne.symm h]
  | cons p t ih =>
    rcases p with ⟨k1, v1⟩
    by_cases h1 : k1 = k
    · subst h1
      simp [setV, getV, Ne.symm h]
    · by_cases h2 : k1 = k' <;> simp [setV, getV, h, h1, h2, ih]

theorem getV_eraseV_ne (o : JSObj) (k k' : String) (h : k' ≠ k) :
    getV (eraseV o k) k' = getV o k' := by
  induction o with
  | nil => rfl
  | cons p t ih =>
    rcases p with ⟨k1, v1⟩
    by_cases h1 : k1 = k
    · subst h1
      simp [eraseV, getV, Ne.symm h, ih]
    · by_cases h2 : k1 = k' <;> simp [eraseV, getV, h, h1, h2, ih]

namespace ElectronicBilling

theorem getV_wrapField_ne (d : JSObj) (p s k : String) (h : k ≠ p) :
    getV (wrapField d p s) k = getV d k := by
  unfold wrapField
  cases hv : getV d p with
  | none => rfl
  | some v =>
    by_cases ht : v.truthy <;> simp [ht, getV_setV_ne _ _ _ _ h]

theorem getV_wrapField_arr (d : JSObj) (p s : String) (l : List JSVal)
    (h : getV d p = some (.arr l)) :
    getV (wrapField d p s) p = some (.obj [(s, .arr l)]) := by
  unfold wrapField
  rw [h]
  simp [JSVal.truthy, getV_setV_self]

theorem getV_wrapField_none (d : JSObj) (q s k : String) (h : getV d k = none) :
    getV (wrapField d q s) k = none := by
  by_cases hqk : k = q
  · subst hqk
    unfold wrapField
    rw [h]
    exact h
  · rw [getV_wrapField_ne _ _ _ _ hqk]
    exact h

/-- A key distinct from every plural name is untouched by the whole chain
of conditional wraps. -/
theorem getV_wrapFold_ne (ps : List (String × String)) (d : JSObj) (k : String)
    (h : ∀ q ∈ ps, k ≠ q.1) :
    getV (ps.foldl (fun d q => wrapField d q.1 q.2) d) k = getV d k := by
  induction ps generalizing d with
  | nil => rfl
  | cons q t ih =>
    simp only [List.foldl]
    rw [ih _ (fun r hr => h r (List.mem_cons_of_mem _ hr)),
        getV_wrapField_ne _ _ _ _ (h q (List.mem_cons_self _ _))]

/-- A key bound to a (truthy) array and listed among the wrap pairs comes
out of the wrap chain bound to the singleton wrapper object. -/
theorem getV_wrapFold_arr (ps : List (String × String)) (d : JSObj) (p s : String)
    (l : List JSVal) (hmem : (p, s) ∈ ps) (hnd : (ps.map Prod.fst).Nodup)
    (hget : getV d p = some (.arr l)) :
    getV (ps.foldl (fun d q => wrapField d q.1 q.2) d) p = some (.obj [(s, .arr l)]) := by
  induction ps generalizing d with
  | nil => cases hmem
  | cons q t ih =>
    rcases q with ⟨q1, q2⟩
    simp only [List.foldl]
    simp only [List.map_cons, List.nodup_cons] at hnd
    rcases List.mem_cons.mp hmem with heq | hmem'
    · injection heq with e1 e2
      subst e1
      subst e2
      rw [getV_wrapFold_ne _ _ _
        (fun r hr hc => hnd.1 (by rw [hc]; exact List.mem_map_of_mem Prod.fst hr))]
      exact getV_wrapField_arr _ _ _ _ hget
    · have hne : p ≠ q1 := by
        intro hc
        apply hnd.1
        rw [← hc]
        exact List.mem_map_of_mem Prod.fst hmem'
      refine ih _ hmem' hnd.2 ?_
      rw [getV_wrapField_ne _ _ _ _ hne]
      exact hget

/-- A key absent from the input stays absent through the wrap chain. -/
theorem getV_wrapFold_none (ps : List (String × String)) (d : JSObj) (k : String)
    (h : getV d k = none) :
    getV (ps.foldl (fun d q => wrapField d q.1 q.2) d) k = none := by
  induction ps generalizing d with
  | nil => exact h
  | cons q t ih =>
    simp only [List.foldl]
    exact ih _ (getV_wrapField_none _ _ _ _ h)

end ElectronicBilling

/-- Reduction of a `do` bind on a resolved value. -/
theorem exceptBind_ok {A B : Type} (a : A) (f : A → JSRes B) :
    (Except.ok a : JSRes A) >>= f = f a := rfl

/-- Reduction of a `do` bind on a rejected value. -/
theorem exceptBind_err {A B : Type} (e : JSErr) (f : A → JSRes B) :
    (Except.error e : JSRes A) >>= f = (.error e : JSRes B) := rfl

/-- Reduction of `Functor.map` on a resolved value. -/
theorem exceptMap_ok {A B : Type} (a : A) (f : A → B) :
    f <$> (Except.ok a : JSRes A) = (.ok (f a) : JSRes B) := rfl

/-- Reduction of `Functor.map` on a rejected value. -/
theorem exceptMap_err {A B : Type} (e : JSErr) (f : A → B) :
    f <$> (Except.error e : JSRes A) = (.error e : JSRes B) := rfl

/-! ### Claim theorems -/

/-- C1 (code-bug exhibit).  The claim says `getVoucherInfo` resolves to an
empty/null result when the remote reports business error 602.  The code
cannot do so: `_checkErrors` throws `new Error(message, code)`, whose
second argument sets no `code` property, so the `err.code === 602` catch
never matches and the call rejects with the `(602) ...` error; and even
when the catch does match (a transport error that carries `code` 602), the
subsequent `result.ResultGet` read on `null` throws a TypeError. -/
theorem C1_getVoucherInfo_602_raises_instead_of_null :
    (ElectronicBilling.getVoucherInfo afipFix (fun _ _ => .ok resp602)
        (.vNum 1) (.vNum 3) (.vNum 11) .vUndefined).result
      = .error ⟨"(602) No existen datos en la base", none⟩ ∧
    (ElectronicBilling.getVoucherInfo afipFix (fun _ _ => .error ⟨"fault", some 602⟩)
        (.vNum 1) (.vNum 3) (.vNum 11) .vUndefined).result
      = .error (typeError "ResultGet") :=
  ⟨rfl, rfl⟩

/-- C2 (code-bug exhibit).  The claim says a supplied credential is used
for the Auth block and the delegate is not consulted.  In the code,
`createVoucher` line 63 reassigns its `tokenAndSign` parameter to
`data.token` (discarding the argument), so with a caller-supplied
credential (token "CT") and no `token` field in `data`, the delegate is
consulted and its token "DT" is submitted; `createNextVoucher`
additionally calls `getLastVoucher` without forwarding the credential, so
the delegate is consulted on both legs. -/
theorem C2_supplied_credential_discarded :
    (ElectronicBilling.createVoucher afipFix (fun _ _ => .ok okResp)
        dataFix (.vBool false) credFix).consulted = ["ws_sr_constancia_inscripcion"] ∧
    ((ElectronicBilling.createVoucher afipFix (fun _ _ => .ok okResp)
        dataFix (.vBool false) credFix).submitted.map
      (fun x => getPropD (getD x.2 "Auth") "Token")) = [.vStr "DT"] ∧
    getPropD credFix "token" = .vStr "CT" ∧
    (ElectronicBilling.createNextVoucher afipFix (transport8 10 okResp)
        [("PtoVta", .vNum 3), ("CbteTipo", .vNum 11)] credFix).consulted
      = ["ws_sr_constancia_inscripcion", "ws_sr_constancia_inscripcion"] :=
  ⟨rfl, rfl, rfl, rfl⟩

/-- C4 (confirmed).  Running the statement sequence of `createVoucher`
that manipulates `data` leaves the caller's object untouched (the
`Object.assign` copy on line 64 precedes every deletion and wrap), and the
copy ends up holding exactly the submitted detail section. -/
theorem C4_createVoucher_does_not_mutate_caller (data : JSObj) :
    (ElectronicBilling.runData ElectronicBilling.createVoucherDataProg ⟨data, false, []⟩).orig
      = data ∧
    ElectronicBilling.readData
        (ElectronicBilling.runData ElectronicBilling.createVoucherDataProg ⟨data, false, []⟩)
      = ElectronicBilling.voucherDetail data :=
  ⟨rfl, rfl⟩

/-- C10 (confirmed).  With no credential supplied and an operation other
than `FEDummy`, `getWSInitialRequest` consults the delegate under
`"ws_sr_constancia_inscripcion"` — not under the `"wsfe"` service name the
class was constructed with — and builds the Auth block from that
credential; for `FEDummy` it returns an empty request and consults
nobody. -/
theorem C10_delegate_service_name (afip : AfipCtx) (operation : String) (ts : JSVal)
    (hop : operation ≠ "FEDummy") (hts : ts.truthy = false) :
    (ElectronicBilling.getWSInitialRequest afip operation ts).2
      = some "ws_sr_constancia_inscripcion" ∧
    (ElectronicBilling.getWSInitialRequest afip operation ts).1
      = [("Auth", .obj
          [("Token", getD (afip.serviceTA "ws_sr_constancia_inscripcion") "token"),
           ("Sign", getD (afip.serviceTA "ws_sr_constancia_inscripcion") "sign"),
           ("Cuit", afip.CUIT)])] ∧
    "ws_sr_constancia_inscripcion" ≠ ElectronicBilling.serviceName ∧
    ElectronicBilling.getWSInitialRequest afip "FEDummy" ts = ([], none) := by
  unfold ElectronicBilling.getWSInitialRequest
  rw [if_neg hop]
  simp [hts, ElectronicBilling.serviceName, getPropD]

/-- Witness for C10 at the concrete operation `FECAESolicitar` with no
credential. -/
theorem C10_delegate_service_name_witness :
    (ElectronicBilling.getWSInitialRequest afipFix "FECAESolicitar" .vUndefined).2
      = some "ws_sr_constancia_inscripcion" :=
  (C10_delegate_service_name afipFix "FECAESolicitar" .vUndefined (by decide) rfl).1

/-- C6 (confirmed).  `getTaxpayerDetails` resolves `null` when the remote
error message contains `"No existe"`, propagates any other error
unchanged, and on success returns the `persona` subtree of the unwrapped
response. -/
theorem C6_taxpayer_not_found_policy (e : JSErr) (idv ts p : JSVal) :
    (containsSub e.message "No existe" = true →
      RegisterScopeFour.getTaxpayerDetails afipFix (fun _ _ => .error e) idv ts = .ok .vNull) ∧
    (containsSub e.message "No existe" = false →
      RegisterScopeFour.getTaxpayerDetails afipFix (fun _ _ => .error e) idv ts = .error e) ∧
    RegisterScopeFour.getTaxpayerDetails afipFix
        (fun _ _ => .ok (.obj [("personaReturn", .obj [("persona", p)])])) idv ts = .ok p := by
  refine ⟨fun h => ?_, fun h => ?_, ?_⟩
  · show (if containsSub e.message "No existe" = true then Except.ok JSVal.vNull
        else Except.error e) = Except.ok JSVal.vNull
    rw [h]
    rfl
  · show (if containsSub e.message "No existe" = true then Except.ok JSVal.vNull
        else Except.error e) = Except.error e
    rw [h]
    rfl
  · rfl

/-- Witness for C6: the canonical "No existe" message resolves to `null`,
a different message propagates. -/
theorem C6_taxpayer_not_found_policy_witness :
    RegisterScopeFour.getTaxpayerDetails afipFix
        (fun _ _ => .error ⟨"No existe persona con ese Id", none⟩) (.vNum 1) .vUndefined
      = .ok .vNull ∧
    RegisterScopeFour.getTaxpayerDetails afipFix
        (fun _ _ => .error ⟨"otro error", none⟩) (.vNum 1) .vUndefined
      = .error ⟨"otro error", none⟩ :=
  ⟨(C6_taxpayer_not_found_policy ⟨"No existe persona con ese Id", none⟩ (.vNum 1) .vUndefined
      .vNull).1 (by decide),
   (C6_taxpayer_not_found_policy ⟨"otro error", none⟩ (.vNum 1) .vUndefined
      .vNull).2.1 (by decide)⟩

/-- C3 (confirmed).  Each of the five plural fields supplied as a list
comes out of the submitted detail section wrapped one level deeper under
its singular element name with the caller's list as sole child; a field
the caller did not supply stays absent. -/
theorem C3_plural_fields_wrapped (data : JSObj) (p s : String) (l : List JSVal)
    (hmem : (p, s) ∈ ElectronicBilling.wrapPairs) :
    (getV data p = some (.arr l) →
      getV (ElectronicBilling.voucherDetail data) p = some (.obj [(s, .arr l)])) ∧
    (getV data p = none → getV (ElectronicBilling.voucherDetail data) p = none) := by
  have h1 : p ≠ "CantReg" := by
    rintro rfl
    simp [ElectronicBilling.wrapPairs] at hmem
  have h2 : p ≠ "PtoVta" := by
    rintro rfl
    simp [ElectronicBilling.wrapPairs] at hmem
  have h3 : p ≠ "CbteTipo" := by
    rintro rfl
    simp [ElectronicBilling.wrapPairs] at hmem
  have hnd : (ElectronicBilling.wrapPairs.map Prod.fst).Nodup := by decide
  constructor
  · intro hget
    unfold ElectronicBilling.voucherDetail
    refine ElectronicBilling.getV_wrapFold_arr _ _ _ _ _ hmem hnd ?_
    rw [getV_eraseV_ne _ _ _ h3, getV_eraseV_ne _ _ _ h2, getV_eraseV_ne _ _ _ h1]
    exact hget
  · intro hget
    unfold ElectronicBilling.voucherDetail
    refine ElectronicBilling.getV_wrapFold_none _ _ _ ?_
    rw [getV_eraseV_ne _ _ _ h3, getV_eraseV_ne _ _ _ h2, getV_eraseV_ne _ _ _ h1]
    exact hget

/-- Witness for C3: a supplied `Tributos` list of two entries is wrapped
under `Tributo`; the unsupplied `Opcionales` stays absent. -/
theorem C3_plural_fields_wrapped_witness :
    getV (ElectronicBilling.voucherDetail
        [("CbteDesde", .vNum 1), ("Tributos", .arr [.obj [("Id", .vNum 99)], .obj [("Id", .vNum 4)]])])
        "Tributos"
      = some (.obj [("Tributo", .arr [.obj [("Id", .vNum 99)], .obj [("Id", .vNum 4)]])]) ∧
    getV (ElectronicBilling.voucherDetail
        [("CbteDesde", .vNum 1), ("Tributos", .arr [.obj [("Id", .vNum 99)], .obj [("Id", .vNum 4)]])])
        "Opcionales"
      = none :=
  ⟨(C3_plural_fields_wrapped _ "Tributos" "Tributo"
      [.obj [("Id", .vNum 99)], .obj [("Id", .vNum 4)]] (by decide)).1 rfl,
   (C3_plural_fields_wrapped _ "Opcionales" "Opcional" [] (by decide)).2 rfl⟩

/-- C7 (confirmed).  A `createVoucher` call behaves identically whether
the transport returns the detail section as a one-element array or as the
bare detail object: the whole call outcome (result, consultations and
submissions) is equal, so in particular the minimal `{CAE, CAEFchVto}`
pair is. -/
theorem C7_detail_array_or_scalar_same_result (afip : AfipCtx) (det : List (String × JSVal))
    (data : JSObj) (ts : JSVal) :
    ElectronicBilling.createVoucher afip
        (fun _ _ => .ok (feCAEResponseWith (.arr [.obj det]))) data (.vBool false) ts
      = ElectronicBilling.createVoucher afip
        (fun _ _ => .ok (feCAEResponseWith (.obj det))) data (.vBool false) ts :=
  rfl

/-- C9 (confirmed).  On any string of exactly eight digits, the
`formatDate` rewrite inserts hyphens after the fourth and sixth digits,
and `createVoucher` in minimal mode runs `CAEFchVto` through exactly this
rewrite. -/
theorem C9_formatDate_eight_digits (l : List Char) (c : JSVal)
    (h8 : l.length = 8) (hd : l.all Char.isDigit = true) :
    ElectronicBilling.dateReplace (String.mk l)
      = String.mk (l.take 4 ++ '-' :: ((l.drop 4).take 2 ++ '-' :: (l.drop 6).take 2)) ∧
    ElectronicBilling.formatDate (.vStr (String.mk l))
      = .ok (.vStr (String.mk
          (l.take 4 ++ '-' :: ((l.drop 4).take 2 ++ '-' :: (l.drop 6).take 2)))) ∧
    (ElectronicBilling.createVoucher afipFix
        (fun _ _ => .ok (feCAEResponseWith (.obj [("CAE", c), ("CAEFchVto", .vStr (String.mk l))])))
        [] (.vBool false) .vUndefined).result
      = .ok (.obj [("CAE", c), ("CAEFchVto", .vStr (String.mk
          (l.take 4 ++ '-' :: ((l.drop 4).take 2 ++ '-' :: (l.drop 6).take 2))))]) := by
  have hrep : ElectronicBilling.replaceDate8 l
      = l.take 4 ++ '-' :: ((l.drop 4).take 2 ++ '-' :: (l.drop 6).take 2) := by
    match l, h8 with
    | [a1, a2, a3, a4, a5, a6, a7, a8], _ =>
      rw [ElectronicBilling.replaceDate8, if_pos]
      · rfl
      · exact ⟨by simp, by simpa using hd⟩
  have hdate : ElectronicBilling.dateReplace (String.mk l)
      = String.mk (l.take 4 ++ '-' :: ((l.drop 4).take 2 ++ '-' :: (l.drop 6).take 2)) :=
    congrArg String.mk hrep
  refine ⟨hdate, ?_, ?_⟩
  · show Except.ok (JSVal.vStr (ElectronicBilling.dateReplace (String.mk l))) = _
    rw [hdate]
  · show Except.ok (JSVal.obj
        [("CAE", c), ("CAEFchVto", .vStr (ElectronicBilling.dateReplace (String.mk l)))]) = _
    rw [hdate]

/-- Witness for C9 at the concrete date `20230415`. -/
theorem C9_formatDate_eight_digits_witness :
    ElectronicBilling.dateReplace "20230415" = "2023-04-15" := by
  have h := (C9_formatDate_eight_digits ("20230415".data) .vNull (by decide) (by decide)).1
  exact h

/-- C5 (confirmed).  A `createVoucher` response whose detail carries a
non-empty observations list and an outcome other than `"A"` makes the
call reject with the first observation's Code and Msg (combined into the
thrown error's message, `"(Code) Msg"`); no failure is raised when the
outcome is `"A"` (even with observations present), and none either when
no observations are present and no top-level error list exists — in
particular for the same non-approved outcome `r` with arbitrary CAE and
date fields (last conjunct). -/
theorem C5_observations_raise_when_not_approved (data : JSObj) (r code msg : JSVal)
    (rest : List JSVal) (cae : JSVal) (fch : String) (hr : strictEqStr r "A" = false) :
    (ElectronicBilling.createVoucher afipFix
        (fun _ _ => .ok (feCAEResponseWith (obsDetail r code msg rest)))
        data (.vBool false) .vUndefined).result
      = .error ⟨"(" ++ jsToString code ++ ") " ++ jsToString msg, none⟩ ∧
    (ElectronicBilling.createVoucher afipFix
        (fun _ _ => .ok (feCAEResponseWith (obsDetail (.vStr "A") code msg rest)))
        data (.vBool false) .vUndefined).result
      = .ok (.obj [("CAE", .vStr "75001"), ("CAEFchVto", .vStr "2023-04-25")]) ∧
    (ElectronicBilling.createVoucher afipFix (fun _ _ => .ok okResp)
        data (.vBool false) .vUndefined).result
      = .ok (.obj [("CAE", .vStr "75001"), ("CAEFchVto", .vStr "2023-04-25")]) ∧
    (ElectronicBilling.createVoucher afipFix
        (fun _ _ => .ok (feCAEResponseWith (.obj
          [("Resultado", r), ("CAE", cae), ("CAEFchVto", .vStr fch)])))
        data (.vBool false) .vUndefined).result
      = .ok (.obj [("CAE", cae), ("CAEFchVto", .vStr (ElectronicBilling.dateReplace fch))]) := by
  refine ⟨?_, rfl, rfl, rfl⟩
  simp [ElectronicBilling.createVoucher, ElectronicBilling.executeRequest,
    ElectronicBilling.checkErrors, ElectronicBilling.getWSInitialRequest,
    feCAEResponseWith, obsDetail, getProp, getD, getV, setProp, setV, getPropD,
    objAssign, JSVal.truthy, ElectronicBilling.formatDate,
    exceptBind_ok, exceptBind_err, exceptMap_ok, exceptMap_err, hr]

/-- Witness for C5 at concrete outcome `"R"`: one observation rejects
with its Code and Msg, and the same non-approved outcome with no
observations resolves to the minimal pair. -/
theorem C5_observations_raise_when_not_approved_witness :
    (ElectronicBilling.createVoucher afipFix
        (fun _ _ => .ok (feCAEResponseWith
          (obsDetail (.vStr "R") (.vNum 10016) (.vStr "Fecha invalida") [])))
        [] (.vBool false) .vUndefined).result
      = .error ⟨"(10016) Fecha invalida", none⟩ ∧
    (ElectronicBilling.createVoucher afipFix
        (fun _ _ => .ok (feCAEResponseWith (.obj
          [("Resultado", .vStr "R"), ("CAE", .vStr "75001"), ("CAEFchVto", .vStr "20230425")])))
        [] (.vBool false) .vUndefined).result
      = .ok (.obj [("CAE", .vStr "75001"), ("CAEFchVto", .vStr "2023-04-25")]) :=
  ⟨(C5_observations_raise_when_not_approved [] (.vStr "R") (.vNum 10016)
      (.vStr "Fecha invalida") [] (.vStr "75001") "20230425" (by decide)).1,
   (C5_observations_raise_when_not_approved [] (.vStr "R") (.vNum 10016)
      (.vStr "Fecha invalida") [] (.vStr "75001") "20230425" (by decide)).2.2.2⟩

/-- C8 (confirmed).  When `getLastVoucher` reports last voucher `n`,
`createNextVoucher` submits a `FECAESolicitar` request whose detail
carries `CbteDesde = CbteHasta = n + 1` and resolves to a result whose
`voucherNumber` is `n + 1`. -/
theorem C8_next_voucher_number (n : Int) (data : JSObj) (ts : JSVal) :
    ((ElectronicBilling.createNextVoucher afipFix (transport8 n okResp) data ts).submitted.map
      Prod.fst) = ["FECompUltimoAutorizado", "FECAESolicitar"] ∧
    submittedDetailField
        (ElectronicBilling.createNextVoucher afipFix (transport8 n okResp) data ts) 1 "CbteDesde"
      = some (.vNum (n + 1)) ∧
    submittedDetailField
        (ElectronicBilling.createNextVoucher afipFix (transport8 n okResp) data ts) 1 "CbteHasta"
      = some (.vNum (n + 1)) ∧
    ∃ v, (ElectronicBilling.createNextVoucher afipFix (transport8 n okResp) data ts).result
        = .ok v ∧ getPropD v "voucherNumber" = .vNum (n + 1) := by
  refine ⟨rfl, ?_, ?_, ?_⟩
  · show getV (ElectronicBilling.voucherDetail
        (setV (setV data "CbteDesde" (.vNum (n + 1))) "CbteHasta" (.vNum (n + 1)))) "CbteDesde"
      = some (.vNum (n + 1))
    unfold ElectronicBilling.voucherDetail
    rw [ElectronicBilling.getV_wrapFold_ne ElectronicBilling.wrapPairs _ "CbteDesde" (by decide),
        getV_eraseV_ne _ "CbteTipo" "CbteDesde" (by decide),
        getV_eraseV_ne _ "PtoVta" "CbteDesde" (by decide),
        getV_eraseV_ne _ "CantReg" "CbteDesde" (by decide),
        getV_setV_ne _ "CbteHasta" "CbteDesde" _ (by decide),
        getV_setV_self]
  · show getV (ElectronicBilling.voucherDetail
        (setV (setV data "CbteDesde" (.vNum (n + 1))) "CbteHasta" (.vNum (n + 1)))) "CbteHasta"
      = some (.vNum (n + 1))
    unfold ElectronicBilling.voucherDetail
    rw [ElectronicBilling.getV_wrapFold_ne ElectronicBilling.wrapPairs _ "CbteHasta" (by decide),
        getV_eraseV_ne _ "CbteTipo" "CbteHasta" (by decide),
        getV_eraseV_ne _ "PtoVta" "CbteHasta" (by decide),
        getV_eraseV_ne _ "CantReg" "CbteHasta" (by decide),
        getV_setV_self]
  · cases ts with
    | vBool b => cases b <;> exact ⟨_, rfl, rfl⟩
    | vNull => exact ⟨_, rfl, rfl⟩
    | vUndefined => exact ⟨_, rfl, rfl⟩
    | vNaN => exact ⟨_, rfl, rfl⟩
    | vNum m => exact ⟨_, rfl, rfl⟩
    | vStr s => exact ⟨_, rfl, rfl⟩
    | arr l => exact ⟨_, rfl, rfl⟩
    | obj o => exact ⟨_, rfl, rfl⟩

end Afip
